import Mathlib

/-!
Shallow embedding of the ShipsGo container-tracking client
(`src/scripts/shipsgo-client.ts`) in Lean 4, together with theorems settling
the frozen claims about its specification.

Modelling conventions:
* JavaScript strings are Lean `String`; optional/possibly-`undefined` values
  are `Option`.  JavaScript truthiness on strings (`""` and `undefined` are
  falsy) is `truthyS`; truthiness on numbers (`0` and `undefined` falsy) is
  `truthyN`.  The short-circuiting value-returning `a || b` is `jsOrS` /
  `jsOrN` / `jsOrA` on the corresponding `Option` types.
* JavaScript numbers that only ever hold integers (HTTP statuses, TTLs in
  milliseconds, retry counts) are `Nat`; delays and jitter (which involve
  `Math.random()`) are `ℚ`.
* `Math.random() * 500` is modelled as an oracle `jitter : Nat → ℚ` giving
  the draw used on each attempt.
* `new Date(s).getTime()` used by the best-match comparator is modelled as
  an oracle `pt : String → Int` (the millisecond value of a timestamp
  string).
* Remote calls are modelled by passing the HTTP status and the decoded JSON
  payload (as a structure of the fields the code reads) into the function
  that the source code runs on the response; thrown exceptions are
  `Except.error` of a `ClientError`.
-/

/-- The six canonical shipment statuses of the `Shipment` interface. -/
inductive ShipmentStatus where
  | PENDING
  | EN_ROUTE
  | ARRIVED
  | DELIVERED
  | DISCARDED
  | NOT_FOUND
deriving DecidableEq, Repr

/-- JavaScript truthiness of an optional string: `undefined` and `""` are falsy. -/
def truthyS (s : Option String) : Bool :=
  match s with
  | none => false
  | some v => v ≠ ""

/-- JavaScript truthiness of an optional number: `undefined` and `0` are falsy. -/
def truthyN (n : Option ℚ) : Bool :=
  match n with
  | none => false
  | some v => v ≠ 0

/-- JavaScript `a || b` on optional strings: the value of `a` when truthy, else `b`. -/
def jsOrS (a b : Option String) : Option String :=
  if truthyS a then a else b

/-- JavaScript `a || b` on optional numbers: the value of `a` when truthy, else `b`. -/
def jsOrN (a b : Option ℚ) : Option ℚ :=
  if truthyN a then a else b

/-- JavaScript `a || b` on optional arrays: any present array (even empty) is truthy. -/
def jsOrA {α : Type} (a b : Option (List α)) : Option (List α) :=
  if a.isSome then a else b

/-- JavaScript `s || dflt` producing a plain string (for `|| "UNKNOWN"`-style defaults). -/
def jsOrStr (a : Option String) (dflt : String) : String :=
  match a with
  | some s => if s = "" then dflt else s
  | none => dflt

/-- JavaScript `String.prototype.toUpperCase` (a platform function), modelled
char-wise over ASCII via `Char.toUpper`. -/
def jsToUpper (s : String) : String :=
  String.mk (s.toList.map Char.toUpper)

/-- Model of `Response.ok`: status in the inclusive-exclusive range [200, 300). -/
def responseOk (status : Nat) : Bool :=
  200 ≤ status && status < 300

/-- Errors thrown by the client.  `apiError` is the `ApiError` class (its
`data` payload is not modelled); `rateLimitError` is `RateLimitError` with its
optional `retryAfter` seconds; `insufficientCreditsError` is
`InsufficientCreditsError`; `timeoutError` is the plain `Error` thrown on
abort; `otherError` stands for any other non-`ApiError` failure (network). -/
inductive ClientError where
  | apiError (status : Nat)
  | rateLimitError (retryAfter : Option Nat)
  | insufficientCreditsError
  | timeoutError
  | otherError
deriving DecidableEq, Repr

-- === Status normalization (`mapStatus`, shipsgo-client.ts lines 433-449) ===

/-- Model of `status.toUpperCase().replace(/[^A-Z_]/g, "_")`: upper-case each character
(ASCII, like `Char.toUpper`), then replace every character that is not an
upper-case letter or underscore by an underscore. -/
def normalizeStatus (s : String) : String :=
  String.mk ((jsToUpper s).toList.map fun c =>
    if ('A' ≤ c ∧ c ≤ 'Z') ∨ c = '_' then c else '_')

/-- The `statusMap` lookup of `mapStatus` with its `|| "PENDING"` default,
entries in source order. -/
def codeStatusTable (n : String) : ShipmentStatus :=
  if n = "PENDING" then .PENDING
  else if n = "INPROGRESS" then .EN_ROUTE
  else if n = "IN_PROGRESS" then .EN_ROUTE
  else if n = "IN_TRANSIT" then .EN_ROUTE
  else if n = "EN_ROUTE" then .EN_ROUTE
  else if n = "DISCHARGED" then .ARRIVED
  else if n = "ARRIVED" then .ARRIVED
  else if n = "DELIVERED" then .DELIVERED
  else if n = "DISCARDED" then .DISCARDED
  else if n = "NOT_FOUND" then .NOT_FOUND
  else .PENDING

/-- Model of `mapStatus(status)`: `undefined` or `""` (falsy) gives PENDING, otherwise
normalize and look up the synonym table. -/
def mapStatus (status : Option String) : ShipmentStatus :=
  match status with
  | none => .PENDING
  | some s => if s = "" then .PENDING else codeStatusTable (normalizeStatus s)

/-- Modelled from the spec: the Response Mapper's status normalization as the
spec states it — apply the fixed synonym table (`INPROGRESS`/`IN_PROGRESS`/
`IN_TRANSIT` map to EN_ROUTE; `DISCHARGED` maps to ARRIVED), recognize the six
canonical names themselves (the invariant says canonical statuses survive the
mapping), and map every unrecognized or absent status to PENDING. -/
def specStatusTable (n : String) : ShipmentStatus :=
  if n = "INPROGRESS" ∨ n = "IN_PROGRESS" ∨ n = "IN_TRANSIT" then .EN_ROUTE
  else if n = "DISCHARGED" then .ARRIVED
  else if n = "EN_ROUTE" then .EN_ROUTE
  else if n = "ARRIVED" then .ARRIVED
  else if n = "DELIVERED" then .DELIVERED
  else if n = "DISCARDED" then .DISCARDED
  else if n = "NOT_FOUND" then .NOT_FOUND
  else if n = "PENDING" then .PENDING
  else .PENDING

/-- Modelled from the spec: the whole spec-side status mapping (absent or
empty status is PENDING, otherwise normalize then apply `specStatusTable`). -/
def specMapStatus (status : Option String) : ShipmentStatus :=
  match status with
  | none => .PENDING
  | some s => if s = "" then .PENDING else specStatusTable (normalizeStatus s)

-- === Canonical data model (the `Shipment` interface) ===

/-- The nested `vessel` object of a `Shipment`. -/
structure Vessel where
  name : String
  imo : Option String
deriving DecidableEq, Repr

/-- The nested `pol` (port of loading) object of a `Shipment`. -/
structure Pol where
  code : String
  name : String
  departure : Option String
deriving DecidableEq, Repr

/-- The nested `pod` (port of discharge) object of a `Shipment`. -/
structure Pod where
  code : String
  name : String
  eta : Option String
  ata : Option String
deriving DecidableEq, Repr

/-- The `Milestone` interface. -/
structure Milestone where
  event : String
  location : Option String
  timestamp : String
  is_actual : Bool
deriving DecidableEq, Repr

/-- The `coordinates` object of a `Shipment`.  The TypeScript type promises
plain numbers, but the runtime values produced by `mapToShipment`'s `||`
chains can be `undefined`, so the fields are `Option`. -/
structure Coordinates where
  lat : Option ℚ
  lng : Option ℚ
deriving DecidableEq, Repr

/-- The canonical `Shipment` record. -/
structure Shipment where
  id : String
  requestId : Option String
  status : ShipmentStatus
  container_number : Option String
  bl_number : Option String
  booking_number : Option String
  carrier : Option String
  vessel : Option Vessel
  pol : Option Pol
  pod : Option Pod
  milestones : Option (List Milestone)
  coordinates : Option Coordinates
  created_at : String
  updated_at : String
  discarded_at : Option String
  custom_reference : Option String
deriving DecidableEq, Repr

-- === Raw API payloads (the fields `mapToShipment` reads) ===

/-- The raw nested `vessel` object: `{name?, imo?}`. -/
structure RawVessel where
  name : Option String
  imo : Option String
deriving DecidableEq, Repr

/-- A raw nested port object (`raw.pol` / `raw.pod`): the fields the mapper
reads from it. -/
structure RawPort where
  code : Option String
  name : Option String
  departure : Option String
  eta : Option String
  ata : Option String
deriving DecidableEq, Repr

/-- A raw milestone/event entry: the fields the mapper reads. -/
structure RawEvent where
  event : Option String
  description : Option String
  location : Option String
  timestamp : Option String
  date : Option String
  isActual : Option Bool
  is_actual : Option Bool
deriving DecidableEq, Repr

/-- The raw nested `coordinates` object: `{lat?, lng?, latitude?, longitude?}`. -/
structure RawCoords where
  lat : Option ℚ
  lng : Option ℚ
  latitude : Option ℚ
  longitude : Option ℚ
deriving DecidableEq, Repr

/-- A `RawCoords` with every field absent (`raw.coordinates || {}`). -/
def emptyRawCoords : RawCoords := ⟨none, none, none, none⟩

/-- A `RawPort` with every field absent (`raw.pol || {}` / `raw.pod || {}`). -/
def emptyRawPort : RawPort := ⟨none, none, none, none, none⟩

/-- A raw API shipment payload: exactly the fields `mapToShipment` reads,
under both naming conventions. -/
structure RawShipment where
  id : Option String
  requestId : Option String
  status : Option String
  shippingStatus : Option String
  containerNumber : Option String
  container_number : Option String
  blNumber : Option String
  bl_number : Option String
  bookingNumber : Option String
  booking_number : Option String
  carrier : Option String
  shippingLine : Option String
  createdAt : Option String
  created_at : Option String
  updatedAt : Option String
  updated_at : Option String
  customReference : Option String
  custom_reference : Option String
  vessel : Option RawVessel
  vesselName : Option String
  vesselImo : Option String
  pol : Option RawPort
  polCode : Option String
  portOfLoading : Option String
  etd : Option String
  atd : Option String
  pod : Option RawPort
  podCode : Option String
  portOfDischarge : Option String
  eta : Option String
  ata : Option String
  milestones : Option (List RawEvent)
  events : Option (List RawEvent)
  coordinates : Option RawCoords
  latitude : Option ℚ
  longitude : Option ℚ
  discardedAt : Option String
  discarded_at : Option String
deriving DecidableEq, Repr

/-- Model of `mapToShipment(raw)` (shipsgo-client.ts lines 361-431).  `now` stands for
`new Date().toISOString()` at call time. -/
def mapToShipment (raw : RawShipment) (now : String) : Shipment :=
  { id := (jsOrS raw.id (jsOrS raw.requestId (some ""))).getD ""
    requestId := if truthyS raw.requestId then raw.requestId else none
    status := mapStatus (jsOrS raw.status raw.shippingStatus)
    container_number := jsOrS raw.containerNumber raw.container_number
    bl_number := jsOrS raw.blNumber raw.bl_number
    booking_number := jsOrS raw.bookingNumber raw.booking_number
    carrier := jsOrS raw.carrier raw.shippingLine
    vessel :=
      if raw.vessel.isSome || truthyS raw.vesselName then
        some { name := (jsOrS (raw.vessel.bind (·.name))
                          (jsOrS raw.vesselName (some ""))).getD ""
               imo := jsOrS (raw.vessel.bind (·.imo)) raw.vesselImo }
      else none
    pol :=
      if raw.pol.isSome || truthyS raw.portOfLoading then
        let p := raw.pol.getD emptyRawPort
        some { code := (jsOrS p.code (jsOrS raw.polCode (some ""))).getD ""
               name := (jsOrS p.name (jsOrS raw.portOfLoading (some ""))).getD ""
               departure := jsOrS p.departure (jsOrS raw.etd raw.atd) }
      else none
    pod :=
      if raw.pod.isSome || truthyS raw.portOfDischarge then
        let p := raw.pod.getD emptyRawPort
        some { code := (jsOrS p.code (jsOrS raw.podCode (some ""))).getD ""
               name := (jsOrS p.name (jsOrS raw.portOfDischarge (some ""))).getD ""
               eta := jsOrS p.eta raw.eta
               ata := jsOrS p.ata raw.ata }
      else none
    milestones :=
      if raw.milestones.isSome || raw.events.isSome then
        some (((jsOrA raw.milestones raw.events).getD []).map fun e =>
          { event := (jsOrS e.event (jsOrS e.description (some ""))).getD ""
            location := e.location
            timestamp := (jsOrS e.timestamp (jsOrS e.date (some ""))).getD ""
            is_actual := ((e.isActual).orElse (fun _ => e.is_actual)).getD true })
      else none
    coordinates :=
      if raw.coordinates.isSome || (truthyN raw.latitude && truthyN raw.longitude) then
        let c := raw.coordinates.getD emptyRawCoords
        some { lat := jsOrN c.lat (jsOrN c.latitude raw.latitude)
               lng := jsOrN c.lng (jsOrN c.longitude raw.longitude) }
      else none
    created_at := (jsOrS raw.createdAt (jsOrS raw.created_at (some now))).getD now
    updated_at := (jsOrS raw.updatedAt (jsOrS raw.updated_at (some now))).getD now
    discarded_at :=
      if truthyS raw.discardedAt || truthyS raw.discarded_at then
        jsOrS raw.discardedAt raw.discarded_at
      else none
    custom_reference := jsOrS raw.customReference raw.custom_reference }

-- === TTL constants and status-dependent cache TTL ===

/-- Modelled from the spec: the `TTL.HOUR` constant of the external
`@local/plugin-cache` package (not part of this repository), one hour in
milliseconds — §4.3 states the hour/day-based TTLs directly. -/
def TTL_HOUR : Nat := 3600000

/-- Modelled from the spec: `TTL.DAY` of `@local/plugin-cache`, 24 hours in
milliseconds (§4.3: "DELIVERED/DISCARDED → 24h"). -/
def TTL_DAY : Nat := 24 * TTL_HOUR

/-- Modelled from the spec: `TTL.FIFTEEN_MINUTES` of `@local/plugin-cache`. -/
def TTL_FIFTEEN_MINUTES : Nat := 15 * 60000

/-- Modelled from the spec: `TTL.THIRTY_MINUTES` of `@local/plugin-cache`. -/
def TTL_THIRTY_MINUTES : Nat := 30 * 60000

/-- Model of `getCacheTTL(shipment)` (shipsgo-client.ts lines 451-464): the
status-dependent TTL; the `default` branch covers NOT_FOUND. -/
def getCacheTTL (shipment : Shipment) : Nat :=
  match shipment.status with
  | .PENDING => TTL_HOUR * 2
  | .EN_ROUTE => TTL_HOUR * 2
  | .ARRIVED => TTL_HOUR * 4
  | .DELIVERED => TTL_DAY
  | .DISCARDED => TTL_DAY
  | .NOT_FOUND => TTL_HOUR * 2

-- === Cache keys and endpoints ===

/-- Modelled from the spec: `createCacheKey` of the external
`@local/plugin-cache` package — "a deterministic key built from operation name
and normalized parameters", serialized here as the operation name followed by
each `key=value` pair. -/
def createCacheKey (op : String) (params : List (String × String)) : String :=
  params.foldl (fun acc p => acc ++ "|" ++ p.1 ++ "=" ++ p.2) op

/-- The `ShipmentCreateRequest` body (flat structure; `shipment_type` is the
constant `"ocean"` and is omitted). -/
structure ShipmentCreateRequest where
  bl_number : Option String
  container_number : Option String
  booking_number : Option String
deriving DecidableEq, Repr

/-- Model of `buildCacheKey(data)` (lines 466-471): key on the first truthy reference,
in BL, container, booking order. -/
def buildCacheKey (data : ShipmentCreateRequest) : String :=
  if truthyS data.bl_number then
    createCacheKey "shipment:bl" [("bl", data.bl_number.getD "")]
  else if truthyS data.container_number then
    createCacheKey "shipment:container" [("container", data.container_number.getD "")]
  else if truthyS data.booking_number then
    createCacheKey "shipment:booking" [("booking", data.booking_number.getD "")]
  else
    createCacheKey "shipment:unknown" []

/-- The cache key `trackByBL` uses (line 690): the BL number upper-cased. -/
def trackByBLCacheKey (blNumber : String) : String :=
  createCacheKey "shipment:bl" [("bl", jsToUpper blNumber)]

/-- The cache key `trackByContainer` uses (line 723). -/
def trackByContainerCacheKey (containerNumber : String) : String :=
  createCacheKey "shipment:container" [("container", jsToUpper containerNumber)]

/-- The cache key `trackByBooking` uses (line 756). -/
def trackByBookingCacheKey (bookingNumber : String) : String :=
  createCacheKey "shipment:booking" [("booking", jsToUpper bookingNumber)]

/-- The cache key `searchByReference` uses (line 789): the reference verbatim. -/
def searchCacheKey (reference : String) : String :=
  createCacheKey "search" [("ref", reference)]

/-- The endpoint `trackByBL` queries (line 697).  `enc` stands for the
platform's `encodeURIComponent`. -/
def trackByBLEndpoint (enc : String → String) (blNumber : String) : String :=
  "/ocean/shipments?bl_number=" ++ enc (jsToUpper blNumber)

/-- The endpoint `trackByContainer` queries (line 730). -/
def trackByContainerEndpoint (enc : String → String) (containerNumber : String) : String :=
  "/ocean/shipments?container_number=" ++ enc (jsToUpper containerNumber)

/-- The endpoint `trackByBooking` queries (line 763). -/
def trackByBookingEndpoint (enc : String → String) (bookingNumber : String) : String :=
  "/ocean/shipments?booking_number=" ++ enc (jsToUpper bookingNumber)

/-- The endpoint `searchByReference` queries (line 796): the reference
verbatim (no upper-casing). -/
def searchEndpoint (enc : String → String) (reference : String) : String :=
  "/ocean/shipments?reference=" ++ enc reference

-- === `request` status handling and the retry wrapper ===

/-- The status-code handling inside `request` (lines 297-305): a 429 throws
`RateLimitError` with the parsed `Retry-After` header, a 402 throws
`InsufficientCreditsError`; every other status returns the response to the
caller (endpoint-specific bodies decide what to do with non-2xx statuses).
The returned value is the status itself, standing in for `{data, response}`. -/
def requestResult (status : Nat) (retryAfterHeader : Option Nat) : Except ClientError Nat :=
  if status = 429 then .error (.rateLimitError retryAfterHeader)
  else if status = 402 then .error .insufficientCreditsError
  else .ok status

/-- The fatal-error test of `fetchWithRetry` (line 332):
`error instanceof ApiError && error.status >= 400 && error.status < 500 &&
error.status !== 429`.  Note that only `ApiError` instances pass this test —
`RateLimitError` and `InsufficientCreditsError` are separate classes. -/
def isFatal (e : ClientError) : Bool :=
  match e with
  | .apiError s => 400 ≤ s && s < 500 && s ≠ 429
  | _ => false

/-- The backoff delay computation of `fetchWithRetry` (lines 342-347):
`baseDelay * 2^attempt + Math.random() * 500`, overridden by
`error.retryAfter * 1000` when the error is a `RateLimitError` whose
`retryAfter` is truthy (present and non-zero). -/
def delayFor (e : ClientError) (attempt : Nat) (baseDelay : ℚ) (jitter : Nat → ℚ) : ℚ :=
  let d := baseDelay * 2 ^ attempt + jitter attempt
  match e with
  | .rateLimitError (some ra) => if ra ≠ 0 then (ra : ℚ) * 1000 else d
  | _ => d

/-- The retry loop of `fetchWithRetry` (lines 325-353).  `attempt` is the loop
counter; `remaining` is `maxRetries - attempt` (so `remaining = 0` is the
`attempt === maxRetries` break).  The result pairs the returned value or the
last error with the list of delays slept between attempts. -/
def retryLoop {α : Type} (op : Nat → Except ClientError α) (baseDelay : ℚ)
    (jitter : Nat → ℚ) : Nat → Nat → Except ClientError α × List ℚ
  | attempt, remaining =>
    match op attempt with
    | .ok v => (.ok v, [])
    | .error e =>
      if isFatal e then (.error e, [])
      else
        match remaining with
        | 0 => (.error e, [])
        | r + 1 =>
          let d := delayFor e attempt baseDelay jitter
          let rest := retryLoop op baseDelay jitter (attempt + 1) r
          (rest.1, d :: rest.2)

/-- Model of `fetchWithRetry(fn, {maxRetries, baseDelay})` (lines 319-354); the source
defaults are `maxRetries = 3`, `baseDelay = 1000`. -/
def fetchWithRetry {α : Type} (op : Nat → Except ClientError α) (maxRetries : Nat)
    (baseDelay : ℚ) (jitter : Nat → ℚ) : Except ClientError α × List ℚ :=
  retryLoop op baseDelay jitter 0 maxRetries

-- === Best-match selection (lines 1010-1032) ===

/-- The `statusOrder` table of `selectBestMatch`; the `?? 5` default never
fires on the typed model because `status` is always one of the six values. -/
def statusOrder (s : ShipmentStatus) : Nat :=
  match s with
  | .EN_ROUTE => 0
  | .PENDING => 1
  | .ARRIVED => 2
  | .DELIVERED => 3
  | .DISCARDED => 4
  | .NOT_FOUND => 5

/-- The comparator passed to `.sort` in `selectBestMatch`: status priority
first, then most-recent `created_at` first.  `pt` models
`new Date(s).getTime()`. -/
def bestMatchCmp (pt : String → Int) (a b : Shipment) : Int :=
  let statusDiff : Int := (statusOrder a.status : Int) - (statusOrder b.status : Int)
  if statusDiff ≠ 0 then statusDiff else pt b.created_at - pt a.created_at

/-- Stable insertion into a sorted list: the new element (earlier in the
original order) is placed before every element it compares equal to, matching
the stable `Array.prototype.sort`. -/
def insertCmp (cmp : Shipment → Shipment → Int) (x : Shipment) :
    List Shipment → List Shipment
  | [] => [x]
  | y :: ys => if cmp y x < 0 then y :: insertCmp cmp x ys else x :: y :: ys

/-- Stable sort by a consistent comparator (insertion sort), matching the
stable `Array.prototype.sort` on the comparator `bestMatchCmp`. -/
def sortByCmp (cmp : Shipment → Shipment → Int) : List Shipment → List Shipment
  | [] => []
  | x :: xs => insertCmp cmp x (sortByCmp cmp xs)

/-- Model of `selectBestMatch(shipments)` (lines 1010-1032): empty gives null; a single
candidate is returned as-is; otherwise the non-discarded entries are sorted by
`bestMatchCmp` and the head is taken, falling back to the raw first element
(`?? shipments[0]`) when every candidate was filtered out. -/
def selectBestMatch (pt : String → Int) (shipments : List Shipment) : Option Shipment :=
  match shipments with
  | [] => none
  | [s] => some s
  | s₀ :: s₁ :: rest =>
    let sorted := sortByCmp (bestMatchCmp pt)
      ((s₀ :: s₁ :: rest).filter fun s => !(truthyS s.discarded_at))
    some (sorted.headD s₀)

-- === createShipment cache gate (lines 526-536) ===

/-- The `source` discriminator of a `CreateResult`. -/
inductive CreateSource where
  | created
  | existing
  | cache
deriving DecidableEq, Repr

/-- The `CreateResult` interface. -/
structure CreateResult where
  shipment : Shipment
  source : CreateSource
  creditUsed : Bool
  warning : Option String
deriving DecidableEq, Repr

/-- Model of `createShipment(data)` up to its cache gate (lines 526-536): build the
cache key; on a cache hit whose data has no truthy `discarded_at`, return the
cached shipment as `{source: "cache", creditUsed: false}` without any remote
call; otherwise run the remote create flow.  `cacheLookup` models `cache.get`
(`some` = hit with data); `remote` models everything from `fetchWithRetry`
onward; the `Bool` of the result records whether the remote flow ran. -/
def createShipment (data : ShipmentCreateRequest)
    (cacheLookup : String → Option Shipment)
    (remote : Except ClientError CreateResult) :
    Except ClientError CreateResult × Bool :=
  match cacheLookup (buildCacheKey data) with
  | some s =>
    if truthyS s.discarded_at then (remote, true)
    else (.ok { shipment := s, source := .cache, creditUsed := false, warning := none }, false)
  | none => (remote, true)

-- === Listing / tracking / search response handling ===

/-- The decoded JSON of a shipment-listing response: the fields the producer
bodies read (`shipments`, `data`, `count`). -/
structure ListResponse where
  shipments : Option (List RawShipment)
  data : Option (List RawShipment)
  count : Option Nat
deriving DecidableEq, Repr

/-- The producer body of `listShipments` applied to the response
(lines 658-671): non-2xx statuses throw `ApiError` (there is no 404 special
case here); otherwise map `shipments || data || []` and default the count to
the array length. -/
def listShipmentsFetch (now : String) (status : Nat) (resp : ListResponse) :
    Except ClientError (List Shipment × Nat) :=
  if !responseOk status then .error (.apiError status)
  else
    let ships := (jsOrA resp.shipments resp.data).getD []
    .ok (ships.map (mapToShipment · now), resp.count.getD ships.length)

/-- The producer body shared by `trackByBL` / `trackByContainer` /
`trackByBooking` applied to the response (lines 695-708 and twins): 404 gives
null, other non-2xx statuses throw `ApiError`, an empty candidate list gives
null, and multiple candidates go through `selectBestMatch`. -/
def trackFetch (pt : String → Int) (now : String) (status : Nat)
    (resp : ListResponse) : Except ClientError (Option Shipment) :=
  if !responseOk status then
    if status = 404 then .ok none else .error (.apiError status)
  else
    let ships := (jsOrA resp.shipments resp.data).getD []
    if ships.length = 0 then .ok none
    else .ok (selectBestMatch pt (ships.map (mapToShipment · now)))

/-- The producer body of `searchByReference` applied to the response
(lines 794-805): 404 gives an empty list, other non-2xx statuses throw
`ApiError`, otherwise all results are mapped. -/
def searchFetch (now : String) (status : Nat) (resp : ListResponse) :
    Except ClientError (List Shipment) :=
  if !responseOk status then
    if status = 404 then .ok [] else .error (.apiError status)
  else
    .ok (((jsOrA resp.shipments resp.data).getD []).map (mapToShipment · now))

-- === Sharing link (lines 956-1007) ===

/-- The `SharingLinkResult` interface. -/
structure SharingLinkResult where
  url : String
  shipmentId : String
  containerNumber : Option String
  status : String
  pol : Option String
  pod : Option String
  eta : Option String
deriving DecidableEq, Repr

/-- A raw route location: `{name?}`. -/
structure SharingLocation where
  name : Option String
deriving DecidableEq, Repr

/-- A raw route port: `{location?, date_of_discharge?}`. -/
structure SharingPort where
  location : Option SharingLocation
  date_of_discharge : Option String
deriving DecidableEq, Repr

/-- The raw `route` object of a sharing-link payload. -/
structure SharingRoute where
  port_of_loading : Option SharingPort
  port_of_discharge : Option SharingPort
deriving DecidableEq, Repr

/-- The shipment-shaped part of a sharing-link payload: the fields
`getSharingLink` reads.  `tokens_map` models `tokens?.map`. -/
structure SharingBody where
  tokens_map : Option String
  container_number : Option String
  status : Option String
  route : Option SharingRoute
deriving DecidableEq, Repr

/-- The decoded JSON of a `GET /ocean/shipments/{id}` response as
`getSharingLink` reads it: either the shipment fields sit one level deeper
under a `shipment` field (shape 1), or the response itself is the shipment
(shape 2, the `top` fields). -/
structure SharingData where
  shipment : Option SharingBody
  top : SharingBody
deriving DecidableEq, Repr

/-- The `SharingLinkResult` record built at lines 994-1002 from the shipment
identifier, the map token and the (possibly nested) shipment payload. -/
def sharingResultOf (id t : String) (shipmentData : SharingBody) : SharingLinkResult :=
  let pol := shipmentData.route.bind (·.port_of_loading)
  let pod := shipmentData.route.bind (·.port_of_discharge)
  { url := "https://map.shipsgo.com/ocean/shipments/" ++ id ++ "?token=" ++ t
    shipmentId := id
    containerNumber := shipmentData.container_number
    status := jsOrStr shipmentData.status "UNKNOWN"
    pol := (pol.bind (·.location)).bind (·.name)
    pod := (pod.bind (·.location)).bind (·.name)
    eta := pod.bind (·.date_of_discharge) }

/-- Model of `getSharingLink(id)` (lines 956-1007).  `cached` models the initial
`cache.get`; `status`/`data` model the raw fetch.  The first component is the
returned value (`none` = null); the second is the `cache.set` performed, if
any, with its TTL. -/
def getSharingLink (id : String) (cached : Option SharingLinkResult)
    (status : Nat) (data : SharingData) :
    Except ClientError (Option SharingLinkResult) × Option (SharingLinkResult × Nat) :=
  match cached with
  | some c => (.ok (some c), none)
  | none =>
    if !responseOk status then
      if status = 404 then (.ok none, none) else (.error (.apiError status), none)
    else
      let shipmentData := data.shipment.getD data.top
      match shipmentData.tokens_map with
      | none => (.ok none, none)
      | some t =>
        if t = "" then (.ok none, none)
        else
          let result := sharingResultOf id t shipmentData
          (.ok (some result), some (result, TTL_DAY))

-- === Concrete fixtures for witnesses and counterexamples ===

/-- A minimal PENDING shipment used to build concrete test inputs. -/
def baseShipment : Shipment :=
  { id := "s1", requestId := none, status := .PENDING, container_number := none,
    bl_number := none, booking_number := none, carrier := none, vessel := none,
    pol := none, pod := none, milestones := none, coordinates := none,
    created_at := "2024-01-01T00:00:00Z", updated_at := "2024-01-01T00:00:00Z",
    discarded_at := none, custom_reference := none }

/-- A raw payload with every field absent. -/
def emptyRawShipment : RawShipment :=
  { id := none, requestId := none, status := none, shippingStatus := none,
    containerNumber := none, container_number := none, blNumber := none,
    bl_number := none, bookingNumber := none, booking_number := none,
    carrier := none, shippingLine := none, createdAt := none, created_at := none,
    updatedAt := none, updated_at := none, customReference := none,
    custom_reference := none, vessel := none, vesselName := none,
    vesselImo := none, pol := none, polCode := none, portOfLoading := none,
    etd := none, atd := none, pod := none, podCode := none,
    portOfDischarge := none, eta := none, ata := none, milestones := none,
    events := none, coordinates := none, latitude := none, longitude := none,
    discardedAt := none, discarded_at := none }

/-- A listing response with every field absent. -/
def emptyListResponse : ListResponse := ⟨none, none, none⟩

/-- A discarded shipment created in January. -/
def discardedShipA : Shipment :=
  { baseShipment with
    id := "a"
    status := .DISCARDED
    discarded_at := some "2024-01-10T00:00:00Z"
    created_at := "2024-01-01T00:00:00Z" }

/-- A discarded shipment created in February (more recent than
`discardedShipA`). -/
def discardedShipB : Shipment :=
  { baseShipment with
    id := "b"
    status := .DISCARDED
    discarded_at := some "2024-02-10T00:00:00Z"
    created_at := "2024-02-01T00:00:00Z" }

/-- A concrete create request keyed on a BL number. -/
def sampleCreateRequest : ShipmentCreateRequest := ⟨some "MAEU123456789", none, none⟩

/-- A stub outcome for the remote create flow. -/
def remoteStub : Except ClientError CreateResult :=
  .ok { shipment := baseShipment, source := .created, creditUsed := true, warning := none }

-- === Helper lemmas ===

/-- The code's status lookup table and the spec's synonym table agree on
every normalized string. -/
theorem statusTables_agree (n : String) : codeStatusTable n = specStatusTable n := by
  by_cases h1 : n = "PENDING"
  · subst h1; decide
  by_cases h2 : n = "INPROGRESS"
  · subst h2; decide
  by_cases h3 : n = "IN_PROGRESS"
  · subst h3; decide
  by_cases h4 : n = "IN_TRANSIT"
  · subst h4; decide
  by_cases h5 : n = "EN_ROUTE"
  · subst h5; decide
  by_cases h6 : n = "DISCHARGED"
  · subst h6; decide
  by_cases h7 : n = "ARRIVED"
  · subst h7; decide
  by_cases h8 : n = "DELIVERED"
  · subst h8; decide
  by_cases h9 : n = "DISCARDED"
  · subst h9; decide
  by_cases h10 : n = "NOT_FOUND"
  · subst h10; decide
  simp [codeStatusTable, specStatusTable, h1, h2, h3, h4, h5, h6, h7, h8, h9, h10]

/-- Membership after stable insertion: an element of the result was the
inserted element or was already present. -/
theorem mem_insertCmp {cmp : Shipment → Shipment → Int} {x y : Shipment}
    {l : List Shipment} (h : y ∈ insertCmp cmp x l) : y = x ∨ y ∈ l := by
  induction l with
  | nil => simpa [insertCmp] using h
  | cons z zs ih =>
    simp only [insertCmp] at h
    split at h
    · rcases List.mem_cons.mp h with h' | h'
      · exact Or.inr (List.mem_cons.mpr (Or.inl h'))
      · rcases ih h' with h'' | h''
        · exact Or.inl h''
        · exact Or.inr (List.mem_cons.mpr (Or.inr h''))
    · simpa using h

/-- The stable sort does not invent elements. -/
theorem mem_sortByCmp {cmp : Shipment → Shipment → Int} {y : Shipment}
    {l : List Shipment} (h : y ∈ sortByCmp cmp l) : y ∈ l := by
  induction l with
  | nil => simp [sortByCmp] at h
  | cons x xs ih =>
    simp only [sortByCmp] at h
    rcases mem_insertCmp h with h' | h'
    · simp [h']
    · exact List.mem_cons.mpr (Or.inr (ih h'))

/-- Appending to a fixed string on the left is injective. -/
theorem stringAppendLeftCancel (s : String) {a b : String}
    (h : s ++ a = s ++ b) : a = b := by
  have hd : (s ++ a).data = (s ++ b).data := congrArg String.data h
  rw [String.data_append, String.data_append] at hd
  exact String.ext (List.append_cancel_left hd)

/-- When every attempt fails with a non-fatal error, the retry loop sleeps
once per remaining retry, with the delay computed by `delayFor` at each
attempt index, and finally surfaces the error of the last attempt. -/
theorem retryLoop_all_errors {α : Type} (op : Nat → Except ClientError α)
    (errs : Nat → ClientError) (hop : ∀ i, op i = .error (errs i))
    (hnf : ∀ i, isFatal (errs i) = false) (b : ℚ) (j : Nat → ℚ) :
    ∀ (r a : Nat), retryLoop op b j a r =
      (.error (errs (a + r)),
        (List.range r).map fun k => delayFor (errs (a + k)) (a + k) b j) := by
  intro r
  induction r with
  | zero =>
    intro a
    rw [retryLoop]
    simp [hop a, hnf a]
  | succ n ih =>
    intro a
    rw [retryLoop]
    simp only [hop a, hnf a, Bool.false_eq_true, if_false]
    rw [ih (a + 1)]
    have hmap : ((List.range n).map fun k => delayFor (errs (a + 1 + k)) (a + 1 + k) b j) =
        (List.range n).map ((fun k => delayFor (errs (a + k)) (a + k) b j) ∘ Nat.succ) := by
      refine List.map_congr_left ?_
      intro k _
      have h' : a + 1 + k = a + Nat.succ k := by omega
      simp [Function.comp, h']
    have hidx : a + 1 + n = a + (n + 1) := by omega
    simp only [hidx, hmap, List.range_succ_eq_map, List.map_cons, List.map_map]
    simp

-- === Claim theorems ===

/-- Claim C1.  Behaviour of the retry wrapper on a remote call whose every
attempt yields HTTP 402 or HTTP 429, composing the status handling of
`request` with `fetchWithRetry` at the source defaults (maxRetries 3,
baseDelay 1000; jitter fixed at 0).  A 402 becomes
`InsufficientCreditsError`, which is not an `ApiError` and therefore misses
the no-retry fast path: the wrapper sleeps and retries three times before
surfacing it, exactly like the 429 — the claim (and the source comment at
line 331, "Don't retry client errors (4xx except 429)") say the 402 error
must surface immediately without retrying, so this theorem exhibits the code
bug.  The 429 half of the claim (retried, surfacing only after the retry
budget) is the second conjunct. -/
theorem c1_402_retried_until_exhaustion :
    fetchWithRetry (fun _ => requestResult 402 none) 3 1000 (fun _ => 0) =
      (Except.error ClientError.insufficientCreditsError, [1000, 2000, 4000]) ∧
    fetchWithRetry (fun _ => requestResult 429 (some 7)) 3 1000 (fun _ => 0) =
      (Except.error (ClientError.rateLimitError (some 7)), [7000, 7000, 7000]) := by
  constructor <;>
    norm_num [fetchWithRetry, retryLoop, requestResult, isFatal, delayFor]

/-- Claim C2, counterexample.  The TTL of a DELIVERED shipment is `TTL.DAY`
(24 h), which is 12 times — not 6 times — the 2-hour TTL of a PENDING
shipment. -/
theorem c2_ttl_counterexample :
    getCacheTTL { baseShipment with status := .DELIVERED } ≠
      6 * getCacheTTL { baseShipment with status := .PENDING } := by
  decide

/-- Claim C2, amended.  The cache TTL of an ARRIVED shipment is exactly 2
times the TTL of a PENDING shipment, and the TTL of a DELIVERED shipment is
exactly 12 times the TTL of a PENDING shipment (24 h versus 2 h; equivalently
6 times the ARRIVED TTL). -/
theorem c2_ttl_ratios (s₁ s₂ s₃ : Shipment) (h₁ : s₁.status = .ARRIVED)
    (h₂ : s₂.status = .PENDING) (h₃ : s₃.status = .DELIVERED) :
    getCacheTTL s₁ = 2 * getCacheTTL s₂ ∧ getCacheTTL s₃ = 12 * getCacheTTL s₂ := by
  simp [getCacheTTL, h₁, h₂, h₃, TTL_HOUR, TTL_DAY]

/-- Claim C2, witness for the amended theorem at concrete shipments. -/
theorem c2_ttl_ratios_witness :
    getCacheTTL { baseShipment with status := .ARRIVED } = 2 * getCacheTTL baseShipment ∧
    getCacheTTL { baseShipment with status := .DELIVERED } = 12 * getCacheTTL baseShipment :=
  c2_ttl_ratios _ _ _ rfl rfl rfl

/-- Claim C3, counterexample.  `listShipments` has no 404 special case: a 404
response makes its producer throw `ApiError(404)` instead of returning an
empty result. -/
theorem c3_list_404_counterexample :
    listShipmentsFetch "2024-01-01T00:00:00Z" 404 emptyListResponse =
      Except.error (ClientError.apiError 404) ∧
    Except.error (ClientError.apiError 404) ≠
      (Except.ok ([], 0) : Except ClientError (List Shipment × Nat)) := by
  exact ⟨rfl, fun h => Except.noConfusion h⟩

/-- Claim C3, amended.  `listShipments` raises `ApiError` on every non-2xx
status, 404 included; the 404-as-empty-result treatment belongs to the
reference trackers (`trackByBL`/`trackByContainer`/`trackByBooking` return
null) and to `searchByReference` (empty list). -/
theorem c3_list_404_raises (now : String) (pt : String → Int) (status : Nat)
    (resp : ListResponse) (h : responseOk status = false) :
    listShipmentsFetch now status resp = .error (.apiError status) ∧
    trackFetch pt now 404 resp = .ok none ∧
    searchFetch now 404 resp = .ok [] := by
  refine ⟨?_, rfl, rfl⟩
  simp [listShipmentsFetch, h]

/-- Claim C3, witness for the amended theorem at a concrete 404 response. -/
theorem c3_list_404_raises_witness :
    listShipmentsFetch "t" 404 emptyListResponse = .error (.apiError 404) ∧
    trackFetch (fun _ => 0) "t" 404 emptyListResponse = .ok none ∧
    searchFetch "t" 404 emptyListResponse = .ok [] :=
  c3_list_404_raises "t" (fun _ => 0) 404 emptyListResponse (by decide)

/-- Claim C6.  Status mapping upper-cases the raw status, replaces every
character that is not a letter or underscore with an underscore, applies the
fixed synonym table (INPROGRESS/IN_PROGRESS/IN_TRANSIT to EN_ROUTE,
DISCHARGED to ARRIVED), and maps every unrecognized or absent status to
PENDING: the code's `mapStatus` agrees with the spec-side `specMapStatus` on
every input, and its codomain is the six-valued `ShipmentStatus` enum, so the
result is always one of the six enumerated values. -/
theorem c6_mapStatus_matches_spec :
    ∀ status : Option String, mapStatus status = specMapStatus status := by
  intro status
  cases status with
  | none => rfl
  | some s =>
    simp only [mapStatus, specMapStatus]
    by_cases hs : s = ""
    · simp [hs]
    · simp only [if_neg hs]
      exact statusTables_agree (normalizeStatus s)

/-- Claim C4, counterexample.  When every candidate is discarded, the
filter empties the list and `selectBestMatch` falls back to the raw first
element (`?? shipments[0]`) without sorting: on two discarded shipments with
distinct identifiers, reordering the same content changes the returned
identifier, refuting both the claimed sorted-head behaviour for all-discarded
lists and the claimed determinism over reorderings.  (The claim's sort would
pick `discardedShipB`, the most recently created, in both orders.) -/
theorem c4_reorder_counterexample :
    selectBestMatch (fun _ => 0) [discardedShipA, discardedShipB] = some discardedShipA ∧
    selectBestMatch (fun _ => 0) [discardedShipB, discardedShipA] = some discardedShipB ∧
    discardedShipA.id ≠ discardedShipB.id := by
  refine ⟨?_, ?_, ?_⟩ <;> decide

/-- Claim C4, amended.  For every non-empty candidate list the selector
returns exactly one shipment (never null) and that shipment is drawn from the
list: it drops discarded entries, sorts the survivors by status priority
EN_ROUTE < PENDING < ARRIVED < DELIVERED < DISCARDED < NOT_FOUND with
most-recent-creation tie-break, and returns the head — but when every
candidate (of a list of two or more) is discarded it returns the first
element in input order without sorting, so reordering an all-discarded list
may change the returned identifier; single-element lists are returned
as-is. -/
theorem c4_selector_total (pt : String → Int) (l : List Shipment) (h : l ≠ []) :
    ∃ s, selectBestMatch pt l = some s ∧ s ∈ l := by
  match l with
  | [] => exact absurd rfl h
  | [s] => exact ⟨s, rfl, by simp⟩
  | s₀ :: s₁ :: rest =>
    cases hs : sortByCmp (bestMatchCmp pt)
        ((s₀ :: s₁ :: rest).filter fun s => !(truthyS s.discarded_at)) with
    | nil =>
      refine ⟨s₀, ?_, by simp⟩
      simp [selectBestMatch, hs]
    | cons z zs =>
      refine ⟨z, ?_, ?_⟩
      · simp [selectBestMatch, hs]
      · have hz : z ∈ sortByCmp (bestMatchCmp pt)
            ((s₀ :: s₁ :: rest).filter fun s => !(truthyS s.discarded_at)) := by
          rw [hs]; exact List.mem_cons_self z zs
        exact (List.mem_filter.mp (mem_sortByCmp hz)).1

/-- Claim C4, witness for the amended theorem at a concrete two-element
list. -/
theorem c4_selector_total_witness :
    ∃ s, selectBestMatch (fun _ => 0) [baseShipment, discardedShipA] = some s ∧
      s ∈ [baseShipment, discardedShipA] :=
  c4_selector_total (fun _ => 0) [baseShipment, discardedShipA] (by simp)

/-- Claim C5, counterexample.  A 429 whose parsed Retry-After is 0 carries an
explicit retry-after duration, but `if (error.retryAfter)` treats the 0 as
falsy, so the computed exponential-backoff delay (1100 = 1000·2⁰ + jitter 100
on the first retry) is used instead of the override 0·1000: the override
clause of the claim fails for a zero retry-after. -/
theorem c5_zero_retry_after_counterexample :
    fetchWithRetry
        (fun _ => (Except.error (ClientError.rateLimitError (some 0)) : Except ClientError Nat))
        3 1000 (fun _ => 100) =
      (Except.error (ClientError.rateLimitError (some 0)), [1100, 2100, 4100]) ∧
    (1100 : ℚ) ≠ (0 : ℚ) * 1000 := by
  constructor
  · norm_num [fetchWithRetry, retryLoop, isFatal, delayFor]
  · norm_num

/-- Claim C5, amended.  For the retry wrapper: (1) a failure carrying a 4xx
status other than 429 (an `ApiError`) is rethrown immediately with no sleeps;
(2) when every attempt fails with a retryable error (5xx `ApiError`, 429,
timeout, network), the wrapper sleeps once per retry up to `maxRetries` and
then raises the error of the last attempt, the slept delays being
`delayFor` at each attempt index; (3) a *positive* explicit retry-after from
a 429 overrides the computed delay as `retryAfter * 1000`; (4) every failure
that is not a 429-with-explicit-retry-after gets the computed delay
`baseDelay * 2^attempt + jitter(attempt)`; (5) with the jitter draw in
[0, 500), that computed delay lies in [baseDelay·2^attempt,
baseDelay·2^attempt + 500).  (A zero retry-after is treated as absent —
see the counterexample.) -/
theorem c5_retry_policy :
    (∀ (α : Type) (op : Nat → Except ClientError α) (m : Nat) (b : ℚ) (j : Nat → ℚ)
        (e : ClientError), op 0 = .error e → isFatal e = true →
        fetchWithRetry op m b j = (.error e, []))
  ∧ (∀ (α : Type) (op : Nat → Except ClientError α) (m : Nat) (b : ℚ) (j : Nat → ℚ)
        (errs : Nat → ClientError), (∀ i, op i = .error (errs i)) →
        (∀ i, isFatal (errs i) = false) →
        fetchWithRetry op m b j =
          (.error (errs m), (List.range m).map fun k => delayFor (errs k) k b j))
  ∧ (∀ (i : Nat) (b : ℚ) (j : Nat → ℚ) (ra : Nat), ra ≠ 0 →
        delayFor (.rateLimitError (some ra)) i b j = (ra : ℚ) * 1000)
  ∧ (∀ (e : ClientError) (i : Nat) (b : ℚ) (j : Nat → ℚ),
        (∀ ra : Nat, e ≠ .rateLimitError (some ra)) →
        delayFor e i b j = b * 2 ^ i + j i)
  ∧ (∀ (e : ClientError) (i : Nat) (b : ℚ) (j : Nat → ℚ),
        (∀ ra : Nat, e ≠ .rateLimitError (some ra)) → 0 ≤ j i → j i < 500 →
        b * 2 ^ i ≤ delayFor e i b j ∧ delayFor e i b j < b * 2 ^ i + 500) := by
  have hdelay : ∀ (e : ClientError) (i : Nat) (b : ℚ) (j : Nat → ℚ),
      (∀ ra : Nat, e ≠ .rateLimitError (some ra)) →
      delayFor e i b j = b * 2 ^ i + j i := by
    intro e i b j he
    cases e with
    | rateLimitError ra =>
      cases ra with
      | none => rfl
      | some x => exact absurd rfl (he x)
    | apiError s => rfl
    | insufficientCreditsError => rfl
    | timeoutError => rfl
    | otherError => rfl
  refine ⟨?_, ?_, ?_, hdelay, ?_⟩
  · intro α op m b j e hop hf
    rw [fetchWithRetry, retryLoop]
    simp [hop, hf]
  · intro α op m b j errs hop hnf
    have := retryLoop_all_errors op errs hop hnf b j m 0
    simpa using this
  · intro i b j ra hra
    simp [delayFor, hra]
  · intro e i b j he hj0 hj500
    rw [hdelay e i b j he]
    constructor
    · linarith
    · linarith

/-- Claim C5, witness for the amended theorem at concrete operations: a 404
is fatal with no sleeps; persistent 500s burn the whole retry budget with
exponential delays; a positive retry-after of 7 s overrides to 7000 ms; a
timeout on attempt 2 gets the computed delay; the computed delay is bounded
by the jitter range. -/
theorem c5_retry_policy_witness :
    fetchWithRetry (fun _ => (Except.error (ClientError.apiError 404) : Except ClientError Nat))
        3 1000 (fun _ => 0) = (Except.error (ClientError.apiError 404), []) ∧
    fetchWithRetry (fun _ => (Except.error (ClientError.apiError 500) : Except ClientError Nat))
        2 1000 (fun _ => 0) =
      (Except.error (ClientError.apiError 500),
        (List.range 2).map fun k => delayFor (ClientError.apiError 500) k 1000 (fun _ => 0)) ∧
    delayFor (ClientError.rateLimitError (some 7)) 0 1000 (fun _ => 0) = (7 : ℚ) * 1000 ∧
    delayFor ClientError.timeoutError 2 1000 (fun _ => 0) = 1000 * 2 ^ 2 + 0 ∧
    (1000 * 2 ^ 2 ≤ delayFor ClientError.timeoutError 2 1000 (fun _ => (100 : ℚ)) ∧
      delayFor ClientError.timeoutError 2 1000 (fun _ => (100 : ℚ)) < 1000 * 2 ^ 2 + 500) := by
  refine ⟨?_, ?_, ?_, ?_, ?_⟩
  · exact c5_retry_policy.1 Nat _ 3 1000 (fun _ => 0) _ rfl rfl
  · exact c5_retry_policy.2.1 Nat _ 2 1000 (fun _ => 0) (fun _ => .apiError 500)
      (fun _ => rfl) (fun _ => rfl)
  · exact c5_retry_policy.2.2.1 0 1000 (fun _ => 0) 7 (by norm_num)
  · exact c5_retry_policy.2.2.2.1 _ 2 1000 (fun _ => 0) (fun ra h => ClientError.noConfusion h)
  · exact c5_retry_policy.2.2.2.2 _ 2 1000 (fun _ => (100 : ℚ))
      (fun ra h => ClientError.noConfusion h) (by norm_num) (by norm_num)

/-- Claim C7.  The cache gate of `createShipment`: a cache hit on a shipment
without a truthy discarded timestamp is returned as
`{source: "cache", creditUsed: false}` with no remote call; a miss, or a hit
carrying a (non-empty) discarded timestamp, proceeds to the remote create
flow.  The final conjunct shows the mapper never produces an empty-string
discarded timestamp, so the non-emptiness hypothesis of the discarded case
covers every shipment this client writes into the cache. -/
theorem c7_create_cache_gate :
    (∀ (data : ShipmentCreateRequest) (lookup : String → Option Shipment)
        (remote : Except ClientError CreateResult) (s : Shipment),
        lookup (buildCacheKey data) = some s → s.discarded_at = none →
        createShipment data lookup remote =
          (.ok { shipment := s, source := .cache, creditUsed := false, warning := none },
            false))
  ∧ (∀ (data : ShipmentCreateRequest) (lookup : String → Option Shipment)
        (remote : Except ClientError CreateResult),
        lookup (buildCacheKey data) = none →
        createShipment data lookup remote = (remote, true))
  ∧ (∀ (data : ShipmentCreateRequest) (lookup : String → Option Shipment)
        (remote : Except ClientError CreateResult) (s : Shipment) (d : String),
        lookup (buildCacheKey data) = some s → s.discarded_at = some d → d ≠ "" →
        createShipment data lookup remote = (remote, true))
  ∧ (∀ (raw : RawShipment) (now : String) (d : String),
        (mapToShipment raw now).discarded_at = some d → d ≠ "") := by
  refine ⟨?_, ?_, ?_, ?_⟩
  · intro data lookup remote s hl hd
    simp [createShipment, hl, truthyS, hd]
  · intro data lookup remote hl
    simp [createShipment, hl]
  · intro data lookup remote s d hl hd hne
    simp [createShipment, hl, truthyS, hd, hne]
  · intro raw now d h
    simp only [mapToShipment] at h
    split at h
    · rename_i hcond
      rw [jsOrS] at h
      split at h
      · rename_i ha
        cases hA : raw.discardedAt with
        | none => rw [hA] at h; exact Option.noConfusion h
        | some v =>
          rw [hA] at h ha
          have hv : v = d := by injection h
          subst hv
          simpa [truthyS] using ha
      · rename_i ha
        have hb : truthyS raw.discarded_at = true := by
          rcases Bool.or_eq_true_iff.mp hcond with h' | h'
          · exact absurd h' ha
          · exact h'
        cases hB : raw.discarded_at with
        | none => rw [hB] at h; exact Option.noConfusion h
        | some w =>
          rw [hB] at h hb
          have hw : w = d := by injection h
          subst hw
          simpa [truthyS] using hb
    · exact Option.noConfusion h

/-- Claim C7, witness at concrete inputs: a fresh cached shipment is returned
without the remote flow; a miss and a discarded hit both run the remote flow;
a mapped payload with a discarded timestamp yields a non-empty one. -/
theorem c7_create_cache_gate_witness :
    createShipment sampleCreateRequest (fun _ => some baseShipment) remoteStub =
      (.ok { shipment := baseShipment, source := .cache, creditUsed := false,
             warning := none }, false) ∧
    createShipment sampleCreateRequest (fun _ => none) remoteStub = (remoteStub, true) ∧
    createShipment sampleCreateRequest (fun _ => some discardedShipA) remoteStub =
      (remoteStub, true) ∧
    ("2024-03-01" : String) ≠ "" := by
  refine ⟨?_, ?_, ?_, ?_⟩
  · exact c7_create_cache_gate.1 _ _ _ _ rfl rfl
  · exact c7_create_cache_gate.2.1 _ _ _ rfl
  · exact c7_create_cache_gate.2.2.1 _ _ _ _ "2024-01-10T00:00:00Z" rfl rfl (by decide)
  · exact c7_create_cache_gate.2.2.2
      { emptyRawShipment with discardedAt := some "2024-03-01" } "t" "2024-03-01" rfl

/-- Claim C8.  On a 2xx raw fetch, a map token found in either accepted
envelope shape — nested one level deeper under a `shipment` field, or at the
top level — makes `getSharingLink` return a result whose URL is exactly
`https://map.shipsgo.com/ocean/shipments/{id}?token={mapToken}` and cache
that result (for `TTL.DAY`); when no token is present it returns null and
writes nothing to the cache. -/
theorem c8_sharing_link :
    (∀ (id t : String) (status : Nat) (data : SharingData) (b : SharingBody),
        responseOk status = true → data.shipment = some b → b.tokens_map = some t →
        t ≠ "" →
        getSharingLink id none status data =
          (.ok (some (sharingResultOf id t b)), some (sharingResultOf id t b, TTL_DAY)) ∧
        (sharingResultOf id t b).url =
          "https://map.shipsgo.com/ocean/shipments/" ++ id ++ "?token=" ++ t)
  ∧ (∀ (id t : String) (status : Nat) (data : SharingData),
        responseOk status = true → data.shipment = none →
        data.top.tokens_map = some t → t ≠ "" →
        getSharingLink id none status data =
          (.ok (some (sharingResultOf id t data.top)),
            some (sharingResultOf id t data.top, TTL_DAY)) ∧
        (sharingResultOf id t data.top).url =
          "https://map.shipsgo.com/ocean/shipments/" ++ id ++ "?token=" ++ t)
  ∧ (∀ (id : String) (status : Nat) (data : SharingData) (b : SharingBody),
        responseOk status = true → data.shipment = some b → b.tokens_map = none →
        getSharingLink id none status data = (.ok none, none))
  ∧ (∀ (id : String) (status : Nat) (data : SharingData),
        responseOk status = true → data.shipment = none → data.top.tokens_map = none →
        getSharingLink id none status data = (.ok none, none)) := by
  refine ⟨?_, ?_, ?_, ?_⟩
  · intro id t status data b hok hship htok ht
    exact ⟨by simp [getSharingLink, hok, hship, htok, ht], rfl⟩
  · intro id t status data hok hship htok ht
    exact ⟨by simp [getSharingLink, hok, hship, htok, ht], rfl⟩
  · intro id status data b hok hship htok
    simp [getSharingLink, hok, hship, htok]
  · intro id status data hok hship htok
    simp [getSharingLink, hok, hship, htok]

/-- A sharing-link payload body carrying a map token. -/
def sampleSharingBody : SharingBody :=
  { tokens_map := some "tok-1", container_number := some "HAMU1058953",
    status := some "IN_TRANSIT", route := none }

/-- A sharing-link payload body with no token. -/
def sampleSharingBodyNoToken : SharingBody :=
  { tokens_map := none, container_number := none, status := none, route := none }

/-- Claim C8, witness: token nested under `shipment`, token at top level, and
the two token-less shapes, all at a concrete id and a 200 response. -/
theorem c8_sharing_link_witness :
    (getSharingLink "5773482" none 200 ⟨some sampleSharingBody, sampleSharingBodyNoToken⟩ =
        (.ok (some (sharingResultOf "5773482" "tok-1" sampleSharingBody)),
          some (sharingResultOf "5773482" "tok-1" sampleSharingBody, TTL_DAY)) ∧
      (sharingResultOf "5773482" "tok-1" sampleSharingBody).url =
        "https://map.shipsgo.com/ocean/shipments/" ++ "5773482" ++ "?token=" ++ "tok-1") ∧
    (getSharingLink "5773482" none 200 ⟨none, sampleSharingBody⟩ =
        (.ok (some (sharingResultOf "5773482" "tok-1" sampleSharingBody)),
          some (sharingResultOf "5773482" "tok-1" sampleSharingBody, TTL_DAY)) ∧
      (sharingResultOf "5773482" "tok-1" sampleSharingBody).url =
        "https://map.shipsgo.com/ocean/shipments/" ++ "5773482" ++ "?token=" ++ "tok-1") ∧
    getSharingLink "5773482" none 200 ⟨some sampleSharingBodyNoToken, sampleSharingBody⟩ =
      (.ok none, none) ∧
    getSharingLink "5773482" none 200 ⟨none, sampleSharingBodyNoToken⟩ = (.ok none, none) := by
  refine ⟨?_, ?_, ?_, ?_⟩
  · exact c8_sharing_link.1 "5773482" "tok-1" 200 _ _ rfl rfl rfl (by decide)
  · exact c8_sharing_link.2.1 "5773482" "tok-1" 200 _ rfl rfl rfl (by decide)
  · exact c8_sharing_link.2.2.1 "5773482" 200 _ _ rfl rfl rfl
  · exact c8_sharing_link.2.2.2 "5773482" 200 _ rfl rfl rfl

/-- Evaluating `a || b` on numbers with an absent left operand yields the right one. -/
theorem jsOrN_none (x : Option ℚ) : jsOrN none x = x := rfl

/-- Claim C9.  When a raw payload has no nested `coordinates` object, the
mapped shipment carries a coordinates field exactly when both top-level
`latitude` and `longitude` are truthy (present and non-zero): a 0 or absent
value on either side yields no coordinates field at all, and when both are
truthy the top-level pair is carried over. -/
theorem c9_coordinates_truthiness (raw : RawShipment) (now : String)
    (hc : raw.coordinates = none) :
    ((truthyN raw.latitude = false ∨ truthyN raw.longitude = false) →
      (mapToShipment raw now).coordinates = none) ∧
    (truthyN raw.latitude = true → truthyN raw.longitude = true →
      (mapToShipment raw now).coordinates = some ⟨raw.latitude, raw.longitude⟩) := by
  constructor
  · intro h
    rcases h with h | h <;> simp [mapToShipment, hc, h]
  · intro h1 h2
    simp [mapToShipment, hc, h1, h2, emptyRawCoords, jsOrN_none]

/-- Claim C9, witness: a zero latitude suppresses the coordinates field; a
non-zero pair is carried over. -/
theorem c9_coordinates_truthiness_witness :
    (mapToShipment { emptyRawShipment with latitude := some 0, longitude := some 7 }
        "t").coordinates = none ∧
    (mapToShipment { emptyRawShipment with latitude := some 5, longitude := some 7 }
        "t").coordinates = some ⟨some 5, some 7⟩ := by
  constructor
  · exact (c9_coordinates_truthiness _ "t" rfl).1 (Or.inl (by norm_num [truthyN]))
  · exact (c9_coordinates_truthiness _ "t" rfl).2 (by norm_num [truthyN]) (by norm_num [truthyN])

/-- Claim C10.  The three reference-kind trackers upper-case the reference
before building both the cache key and the remote query, so two references
with the same upper-cased form share one cache entry and one query;
`searchByReference` uses the reference verbatim, so (the key construction
and any injective URI encoding being injective) two distinct references —
in particular two differing only in letter case — address distinct cache
entries and distinct remote queries. -/
theorem c10_reference_case_handling (enc : String → String) (r₁ r₂ : String) :
    (jsToUpper r₁ = jsToUpper r₂ →
      trackByBLCacheKey r₁ = trackByBLCacheKey r₂ ∧
      trackByContainerCacheKey r₁ = trackByContainerCacheKey r₂ ∧
      trackByBookingCacheKey r₁ = trackByBookingCacheKey r₂ ∧
      trackByBLEndpoint enc r₁ = trackByBLEndpoint enc r₂ ∧
      trackByContainerEndpoint enc r₁ = trackByContainerEndpoint enc r₂ ∧
      trackByBookingEndpoint enc r₁ = trackByBookingEndpoint enc r₂)
  ∧ (Function.Injective enc → r₁ ≠ r₂ →
      searchCacheKey r₁ ≠ searchCacheKey r₂ ∧
      searchEndpoint enc r₁ ≠ searchEndpoint enc r₂) := by
  constructor
  · intro h
    refine ⟨?_, ?_, ?_, ?_, ?_, ?_⟩ <;>
      simp [trackByBLCacheKey, trackByContainerCacheKey, trackByBookingCacheKey,
        trackByBLEndpoint, trackByContainerEndpoint, trackByBookingEndpoint,
        createCacheKey, h]
  · intro hinj hne
    constructor
    · intro hk
      apply hne
      simp only [searchCacheKey, createCacheKey, List.foldl] at hk
      exact stringAppendLeftCancel ("search" ++ "|" ++ "ref" ++ "=") hk
    · intro hk
      apply hne
      simp only [searchEndpoint] at hk
      exact hinj (stringAppendLeftCancel "/ocean/shipments?reference=" hk)

/-- Claim C10, witness at the case variants "abc" and "ABC" with the identity
encoding (which is injective). -/
theorem c10_reference_case_handling_witness :
    (trackByBLCacheKey "abc" = trackByBLCacheKey "ABC" ∧
      trackByContainerCacheKey "abc" = trackByContainerCacheKey "ABC" ∧
      trackByBookingCacheKey "abc" = trackByBookingCacheKey "ABC" ∧
      trackByBLEndpoint (fun s => s) "abc" = trackByBLEndpoint (fun s => s) "ABC" ∧
      trackByContainerEndpoint (fun s => s) "abc" =
        trackByContainerEndpoint (fun s => s) "ABC" ∧
      trackByBookingEndpoint (fun s => s) "abc" =
        trackByBookingEndpoint (fun s => s) "ABC") ∧
    (searchCacheKey "abc" ≠ searchCacheKey "ABC" ∧
      searchEndpoint (fun s => s) "abc" ≠ searchEndpoint (fun s => s) "ABC") := by
  constructor
  · exact (c10_reference_case_handling (fun s => s) "abc" "ABC").1 (by decide)
  · exact (c10_reference_case_handling (fun s => s) "abc" "ABC").2
      (fun a b hab => hab) (by decide)
